import Mathlib

/-!
Verification development for the DTZ NOVA XMD WhatsApp pairing server.

The embedding follows the two source modules:
- gen-id.js: generateSessionId, generatePairingCode, hashPhoneNumber,
  validatePhoneNumber.
- pair.js: class SessionManager (activeSessions Map, createSession,
  updateSession, cleanupSession, canCreateSession, getStats), the
  router handlers, and initiateWhatsAppPairing.

JavaScript strings are modelled as Lean String (a list of Char), the
ES Map as an association list with the Map insertion-order semantics
(set replaces in place, delete removes the entry, values iterates in
insertion order).  File-system effects (temp credential directories,
archival JSON records in sessions/expired) and WebSocket close calls
are modelled as explicit fields of the manager state.  Time is an
explicit Nat parameter standing for Date.now().
-/

/-! ## Association list with ES-Map semantics -/

def mapGet {α : Type} (k : String) : List (String × α) → Option α
  | [] => none
  | (k0, v0) :: rest => if k0 = k then some v0 else mapGet k rest

def mapSet {α : Type} (k : String) (v : α) : List (String × α) → List (String × α)
  | [] => [(k, v)]
  | (k0, v0) :: rest => if k0 = k then (k, v) :: rest else (k0, v0) :: mapSet k v rest

def mapDelete {α : Type} (k : String) : List (String × α) → List (String × α)
  | [] => []
  | (k0, v0) :: rest => if k0 = k then rest else (k0, v0) :: mapDelete k rest

/-! ## gen-id.js: validatePhoneNumber -/

/-- Model of the JS regex replace of every non-digit with the empty string
(phone.replace with the non-digit class). -/
def stripNonDigits (s : String) : String :=
  ⟨s.data.filter Char.isDigit⟩

/-- Model of JS String.startsWith for a one-character pattern. -/
def startsWithChar (s : String) (c : Char) : Bool :=
  match s.data with
  | [] => false
  | a :: _ => a == c

/-- gen-id.js validatePhoneNumber: strip non-digits, reject empty,
reject length below 10 or above 15, accept exactly when the cleaned
string starts with one of the characters 1 through 9, returning the
cleaned string (the JS function returns false on rejection, modelled
as none). -/
def validatePhoneNumber (phone : String) : Option String :=
  let cleaned := stripNonDigits phone
  if cleaned = "" then none
  else if cleaned.length < 10 || cleaned.length > 15 then none
  else if startsWithChar cleaned '1' || startsWithChar cleaned '2' ||
          startsWithChar cleaned '3' || startsWithChar cleaned '4' ||
          startsWithChar cleaned '5' || startsWithChar cleaned '6' ||
          startsWithChar cleaned '7' || startsWithChar cleaned '8' ||
          startsWithChar cleaned '9'
  then some cleaned else none

/-! ## gen-id.js: generateSessionId -/

/-- The 62-character alphanumeric alphabet of generateSessionId. -/
def sessionIdChars : List Char :=
  "ABCDEFGHIJKLMNOPQRSTUVWXYZabcdefghijklmnopqrstuvwxyz0123456789".data

/-- One character of a session id: chars[byte mod chars.length]. -/
def byteToChar (b : Nat) : Char :=
  sessionIdChars.getD (b % sessionIdChars.length) 'A'

/-- gen-id.js generateSessionId, parametrized by the crypto randomBytes
output (a list of byte values below 256; the default call uses 12 bytes). -/
def generateSessionId (bytes : List Nat) : String :=
  ⟨bytes.map byteToChar⟩

/-- Number of byte values in 0..255 that select a given character. -/
def preimageCount (c : Char) : Nat :=
  ((List.range 256).filter (fun b => byteToChar b = c)).length

/-! ## gen-id.js: hashPhoneNumber

The source computes createHash of kind sha256 over the phone string,
takes the hex digest and keeps the first 16 characters.  SHA-256 is
embedded below over Nat with explicit reduction modulo 2 to the 32. -/

def w32 (n : Nat) : Nat := n % 4294967296

def rotr32 (n x : Nat) : Nat := x / 2 ^ n + x % 2 ^ n * 2 ^ (32 - n)

def bigSigma0 (x : Nat) : Nat := rotr32 2 x ^^^ rotr32 13 x ^^^ rotr32 22 x

def bigSigma1 (x : Nat) : Nat := rotr32 6 x ^^^ rotr32 11 x ^^^ rotr32 25 x

def smallSigma0 (x : Nat) : Nat := rotr32 7 x ^^^ rotr32 18 x ^^^ x / 2 ^ 3

def smallSigma1 (x : Nat) : Nat := rotr32 17 x ^^^ rotr32 19 x ^^^ x / 2 ^ 10

def chFun (x y z : Nat) : Nat := (x &&& y) ^^^ ((x ^^^ 4294967295) &&& z)

def majFun (x y z : Nat) : Nat := (x &&& y) ^^^ (x &&& z) ^^^ (y &&& z)

def shaK : List Nat :=
  [1116352408, 1899447441, 3049323471, 3921009573,
   961987163, 1508970993, 2453635748, 2870763221,
   3624381080, 310598401, 607225278, 1426881987,
   1925078388, 2162078206, 2614888103, 3248222580,
   3835390401, 4022224774, 264347078, 604807628,
   770255983, 1249150122, 1555081692, 1996064986,
   2554220882, 2821834349, 2952996808, 3210313671,
   3336571891, 3584528711, 113926993, 338241895,
   666307205, 773529912, 1294757372, 1396182291,
   1695183700, 1986661051, 2177026350, 2456956037,
   2730485921, 2820302411, 3259730800, 3345764771,
   3516065817, 3600352804, 4094571909, 275423344,
   430227734, 506948616, 659060556, 883997877,
   958139571, 1322822218, 1537002063, 1747873779,
   1955562222, 2024104815, 2227730452, 2361852424,
   2428436474, 2756734187, 3204031479, 3329325298]

structure Hash8 where
  ha : Nat
  hb : Nat
  hc : Nat
  hd : Nat
  he : Nat
  hf : Nat
  hg : Nat
  hh : Nat
deriving DecidableEq

def initH : Hash8 :=
  { ha := 1779033703, hb := 3144134277, hc := 1013904242, hd := 2773480762,
    he := 1359893119, hf := 2600822924, hg := 528734635, hh := 1541459225 }

/-- SHA-256 padding: append byte 128, zero bytes up to 56 mod 64, then
the 8-byte big-endian bit length. -/
def padMessage (msg : List Nat) : List Nat :=
  let len := msg.length
  let k := (120 - (len + 1) % 64) % 64
  msg ++ [128] ++ List.replicate k 0 ++
    (List.range 8).map (fun i => len * 8 / 2 ^ (8 * (7 - i)) % 256)

def toBlocks (padded : List Nat) : List (List Nat) :=
  (List.range (padded.length / 64)).map (fun i => (padded.drop (64 * i)).take 64)

def blockWords (block : List Nat) : List Nat :=
  (List.range 16).map (fun j =>
    block.getD (4 * j) 0 * 16777216 + block.getD (4 * j + 1) 0 * 65536 +
    block.getD (4 * j + 2) 0 * 256 + block.getD (4 * j + 3) 0)

def extendSchedule : Nat → List Nat → List Nat
  | 0, w => w
  | n + 1, w =>
    let i := w.length
    let next := w32 (smallSigma1 (w.getD (i - 2) 0) + w.getD (i - 7) 0 +
                     smallSigma0 (w.getD (i - 15) 0) + w.getD (i - 16) 0)
    extendSchedule n (w ++ [next])

def schedule (block : List Nat) : List Nat :=
  extendSchedule 48 (blockWords block)

def shaRound (hs : Hash8) (kw : Nat × Nat) : Hash8 :=
  let t1 := w32 (hs.hh + bigSigma1 hs.he + chFun hs.he hs.hf hs.hg + kw.1 + kw.2)
  let t2 := w32 (bigSigma0 hs.ha + majFun hs.ha hs.hb hs.hc)
  { ha := w32 (t1 + t2), hb := hs.ha, hc := hs.hb, hd := hs.hc,
    he := w32 (hs.hd + t1), hf := hs.he, hg := hs.hf, hh := hs.hg }

def compress (hs : Hash8) (block : List Nat) : Hash8 :=
  let r := (shaK.zip (schedule block)).foldl shaRound hs
  { ha := w32 (hs.ha + r.ha), hb := w32 (hs.hb + r.hb), hc := w32 (hs.hc + r.hc),
    hd := w32 (hs.hd + r.hd), he := w32 (hs.he + r.he), hf := w32 (hs.hf + r.hf),
    hg := w32 (hs.hg + r.hg), hh := w32 (hs.hh + r.hh) }

def sha256Words (msg : List Nat) : Hash8 :=
  (toBlocks (padMessage msg)).foldl compress initH

def hexDigitChar (n : Nat) : Char :=
  "0123456789abcdef".data.getD n '0'

def toHex8 (n : Nat) : List Char :=
  (List.range 8).map (fun i => hexDigitChar (n / 2 ^ (4 * (7 - i)) % 16))

def sha256Hex (msg : List Nat) : String :=
  let hs := sha256Words msg
  ⟨toHex8 hs.ha ++ toHex8 hs.hb ++ toHex8 hs.hc ++ toHex8 hs.hd ++
   toHex8 hs.he ++ toHex8 hs.hf ++ toHex8 hs.hg ++ toHex8 hs.hh⟩

/-- gen-id.js hashPhoneNumber: sha256 hex digest of the phone string
truncated to its first 16 characters.  Phone strings here are ASCII
digits, so the UTF-8 bytes fed to the hash are the character codes. -/
def hashPhoneNumber (phone : String) : String :=
  ⟨(sha256Hex (phone.data.map Char.toNat)).data.take 16⟩

example : validatePhoneNumber "923123456789" = some "923123456789" := by decide
example : validatePhoneNumber "+92 312 345 6789" = some "923123456789" := by decide
example : validatePhoneNumber "123" = none := by decide
example : validatePhoneNumber "0123456789123" = none := by decide
example : preimageCount 'A' = 5 := by decide
example : preimageCount '9' = 4 := by decide
example : generateSessionId [0, 1, 61, 62] = "AB9A" := by decide

/-! ## pair.js: SessionManager state

A WebSocket handle carries the readyState checked by the source (3
means CLOSED) and a numeric identity so that close requests can be
recorded.  The socket object of the external client is modelled by
its ws field only, which is all the registry ever touches. -/

structure WS where
  wsId : Nat
  readyState : Nat
deriving DecidableEq

structure Socket where
  ws : Option WS
deriving DecidableEq

structure Session where
  id : String
  ip : String
  phone : String
  startedAt : Nat
  status : String
  socket : Option Socket
  pairingCode : Option String
  sessionError : Option String
deriving DecidableEq

/-- A subset-of-fields update as passed to updateSession; Object.assign
overwrites exactly the fields that are present. -/
structure SessionUpdate where
  status : Option String
  pairingCode : Option String
  sessionError : Option String
  socket : Option Socket
deriving DecidableEq

def noUpdate : SessionUpdate :=
  { status := none, pairingCode := none, sessionError := none, socket := none }

def applyUpdate (s : Session) (u : SessionUpdate) : Session :=
  { s with
    status := match u.status with | some v => v | none => s.status,
    pairingCode := match u.pairingCode with | some v => some v | none => s.pairingCode,
    sessionError := match u.sessionError with | some v => some v | none => s.sessionError,
    socket := match u.socket with | some v => some v | none => s.socket }

/-- The JSON written to sessions/expired at cleanup: the session spread
together with endedAt and duration. -/
structure ArchivedSession where
  session : Session
  endedAt : Nat
  duration : Nat
deriving DecidableEq

/-- The SessionManager instance state together with the file-system and
socket effects the class performs: the live Map, the archival records
(one file per session id), the set of ws handles asked to close, and
the per-session temp credential directories.  timers records the
pending auto-cleanup callbacks as (fire time, session id). -/
structure ManagerState where
  maxSessionsPerIP : Nat
  sessionTimeout : Nat
  activeSessions : List (String × Session)
  archive : List (String × ArchivedSession)
  closedSockets : List Nat
  tempDirs : List String
  timers : List (Nat × String)
deriving DecidableEq

def initialState (maxPerIP timeout : Nat) : ManagerState :=
  { maxSessionsPerIP := maxPerIP, sessionTimeout := timeout,
    activeSessions := [], archive := [], closedSockets := [],
    tempDirs := [], timers := [] }

/-- The live-session count for one source address, as computed by
canCreateSession: values of the Map filtered by ip. -/
def ipCount (ip : String) (st : ManagerState) : Nat :=
  ((st.activeSessions.map Prod.snd).filter (fun s => s.ip == ip)).length

/-- pair.js canCreateSession. -/
def canCreateSession (ip : String) (st : ManagerState) : Bool :=
  decide (ipCount ip st < st.maxSessionsPerIP)

/-- pair.js createSession: insert the fresh session with status
initializing and schedule the auto-cleanup timer at now plus the
configured timeout. -/
def createSession (now : Nat) (sessionId ip phone : String) (st : ManagerState) : ManagerState :=
  let session : Session :=
    { id := sessionId, ip := ip, phone := phone, startedAt := now,
      status := "initializing", socket := none, pairingCode := none,
      sessionError := none }
  { st with
    activeSessions := mapSet sessionId session st.activeSessions,
    timers := st.timers ++ [(now + st.sessionTimeout, sessionId)] }

/-- pair.js updateSession: Object.assign the updates onto the session
if it is present, no-op otherwise. -/
def updateSession (sessionId : String) (u : SessionUpdate) (st : ManagerState) : ManagerState :=
  match mapGet sessionId st.activeSessions with
  | none => st
  | some s =>
    { st with activeSessions := mapSet sessionId (applyUpdate s u) st.activeSessions }

/-- pair.js cleanupSession: when the session is live, close its ws if
present, remove the temp credential directory, delete the session from
the live Map and write the archival record; when the id is not live,
do nothing. -/
def cleanupSession (now : Nat) (sessionId : String) (st : ManagerState) : ManagerState :=
  match mapGet sessionId st.activeSessions with
  | none => st
  | some session =>
    let closed := match session.socket with
      | some sock => match sock.ws with
        | some w => st.closedSockets ++ [w.wsId]
        | none => st.closedSockets
      | none => st.closedSockets
    { st with
      closedSockets := closed,
      tempDirs := st.tempDirs.filter (fun d => d ≠ sessionId),
      activeSessions := mapDelete sessionId st.activeSessions,
      archive := mapSet sessionId
        { session := session, endedAt := now, duration := now - session.startedAt }
        st.archive }

/-! ## pair.js: getStats -/

structure RecentEntry where
  id : String
  phone : String
  status : String
  age : Nat
deriving DecidableEq

structure SessionStats where
  total : Nat
  byStatus : List (String × Nat)
  recent : List RecentEntry
deriving DecidableEq

/-- One step of the byStatus reduce: acc[status] becomes acc[status]
(defaulting to 0) plus one. -/
def bumpStatus (acc : List (String × Nat)) (status : String) : List (String × Nat) :=
  match mapGet status acc with
  | some n => mapSet status (n + 1) acc
  | none => mapSet status 1 acc

/-- JS Array.slice with a negative start: the last n elements. -/
def lastN {α : Type} (n : Nat) (l : List α) : List α :=
  l.drop (l.length - n)

/-- pair.js getStats: total live count, counts grouped by status, and
the last five sessions with the phone replaced by hashPhoneNumber. -/
def getStats (now : Nat) (st : ManagerState) : SessionStats :=
  let sessions := st.activeSessions.map Prod.snd
  { total := st.activeSessions.length,
    byStatus := sessions.foldl (fun acc s => bumpStatus acc s.status) [],
    recent := (lastN 5 sessions).map (fun s =>
      { id := s.id, phone := hashPhoneNumber s.phone, status := s.status,
        age := (now - s.startedAt) / 1000 }) }

/-! ## pair.js: initiateWhatsAppPairing and the routes -/

/-- The external collaborator behaviour visible to one pairing attempt:
whether storage allocation or socket construction throws, whether the
stored credential state says the identity is already registered, the
outcome of requestPairingCode, and the socket object handed back. -/
structure ExternalEnv where
  connectError : Option String
  registered : Bool
  codeResult : Except String String
  sock : Socket

/-- The resolved value of the initiateWhatsAppPairing promise: the JS
function returns an object with success plus code or error fields, or
falls off the end and resolves to undefined (modelled by the outer
Option being none). -/
structure POutcome where
  success : Bool
  code : Option String
  message : Option String
  errorMsg : Option String
deriving DecidableEq

/-- pair.js initiateWhatsAppPairing.  On a collaborator exception the
temp directory is removed again and a failure outcome returned, with
the registry untouched.  Otherwise the temp credential directory
exists, the socket is stored on the session, and when the credential
state is unregistered the requestPairingCode outcome decides between
the success and failure return values; when it is registered the
function returns undefined. -/
def initiateWhatsAppPairing (phoneNumber sessionId : String) (env : ExternalEnv)
    (st : ManagerState) : Option POutcome × ManagerState :=
  match env.connectError with
  | some e =>
    (some { success := false, code := none, message := none, errorMsg := some e }, st)
  | none =>
    let st1 := { st with tempDirs := st.tempDirs ++ [sessionId] }
    let st2 := updateSession sessionId { noUpdate with socket := some env.sock } st1
    if env.registered = false then
      match env.codeResult with
      | Except.ok code =>
        (some { success := true, code := some code,
                message := some "Pairing code generated successfully",
                errorMsg := none }, st2)
      | Except.error e =>
        (some { success := false, code := none, message := none,
                errorMsg := some e }, st2)
    else (none, st2)

/-- The JSON-visible shape of a response from the pairing route. -/
structure PairResponse where
  httpStatus : Nat
  success : Option Bool
  code : Option String
  errorCode : Option String
deriving DecidableEq

/-- The pairing route handler of pair.js.  rawNumber is the number
query parameter, sessionId the value generateSessionId produced, env
the external collaborator behaviour.  Between the capacity check and
createSession the handler never awaits, so the two run as one atomic
unit of the event loop; the model reflects this by making the handler
one function.  When initiateWhatsAppPairing resolves to undefined the
handler throws reading its success field and the catch block answers
500 INTERNAL_ERROR. -/
def handlePairRequest (rawNumber sessionId ip : String) (now : Nat) (env : ExternalEnv)
    (st : ManagerState) : PairResponse × ManagerState :=
  let phoneNumber := stripNonDigits rawNumber
  if phoneNumber = "" then
    ({ httpStatus := 400, success := none, code := none,
       errorCode := some "VALIDATION_ERROR" }, st)
  else
    match validatePhoneNumber phoneNumber with
    | none =>
      ({ httpStatus := 400, success := none, code := none,
         errorCode := some "VALIDATION_ERROR" }, st)
    | some validatedPhone =>
      if canCreateSession ip st = false then
        ({ httpStatus := 429, success := none, code := none,
           errorCode := some "RATE_LIMIT_EXCEEDED" }, st)
      else
        let st1 := createSession now sessionId ip validatedPhone st
        let res := initiateWhatsAppPairing validatedPhone sessionId env st1
        match res.1 with
        | some r =>
          if r.success then
            let st3 := updateSession sessionId
              { noUpdate with status := some "paired", pairingCode := r.code } res.2
            ({ httpStatus := 200, success := some true, code := r.code,
               errorCode := none }, st3)
          else
            let st3 := updateSession sessionId
              { noUpdate with status := some "failed", sessionError := r.errorMsg } res.2
            ({ httpStatus := 500, success := none, code := none,
               errorCode := some "PAIRING_FAILED" }, st3)
        | none =>
          ({ httpStatus := 500, success := none, code := none,
             errorCode := some "INTERNAL_ERROR" }, res.2)

/-- A connection.update event as seen by the handler registered in
initiateWhatsAppPairing: the open phase, or the close phase carrying
whether the disconnect status code is DisconnectReason.loggedOut and
the optional error message. -/
inductive ConnUpdate where
  | connOpen
  | connClose (loggedOut : Bool) (errMsg : Option String)
deriving DecidableEq

/-- The connection.update handler of pair.js.  On open: status becomes
connected, the welcome message goes out through the external client,
the ws captured by the closure is closed if its readyState is not 3,
and a delayed cleanup is scheduled 10000 ms later.  On close: logged
out sets status logged_out with a fixed reason; any other close with
an error sets status disconnected; a close without an error changes
nothing. -/
def handleConnectionUpdate (sessionId : String) (sock : Socket) (now : Nat)
    (ev : ConnUpdate) (st : ManagerState) : ManagerState :=
  match ev with
  | ConnUpdate.connOpen =>
    let st1 := updateSession sessionId { noUpdate with status := some "connected" } st
    let st2 := match sock.ws with
      | some w =>
        if w.readyState ≠ 3 then { st1 with closedSockets := st1.closedSockets ++ [w.wsId] }
        else st1
      | none => st1
    { st2 with timers := st2.timers ++ [(now + 10000, sessionId)] }
  | ConnUpdate.connClose loggedOut errMsg =>
    if loggedOut then
      updateSession sessionId
        { noUpdate with status := some "logged_out"
                        sessionError := some "Logged out from WhatsApp" } st
    else
      match errMsg with
      | some e =>
        updateSession sessionId
          { noUpdate with status := some "disconnected", sessionError := some e } st
      | none => st

/-- The admin cleanup route of pair.js: on a key mismatch answer 403
and touch nothing; otherwise forward the caller-supplied sessionId, if
any, to cleanupSession. -/
def handleCleanupRequest (key envKey : String) (sessionId : Option String) (now : Nat)
    (st : ManagerState) : Bool × ManagerState :=
  if key ≠ envKey then (false, st)
  else
    match sessionId with
    | some sid => (true, cleanupSession now sid st)
    | none => (true, st)

/-! ## The transition system

Each constructor is one synchronous handler invocation of the source:
a pairing request (whose capacity check and createSession run with no
intervening await), a connection.update event, a cleanup (auto-expiry
timer firing or the admin endpoint), or a bare updateSession as done
when the socket is attached. -/

inductive Step : ManagerState → ManagerState → Prop where
  | pairRequest (raw sid ip : String) (now : Nat) (env : ExternalEnv) (st : ManagerState) :
      Step st (handlePairRequest raw sid ip now env st).2
  | connectionEvent (sid : String) (sock : Socket) (now : Nat) (ev : ConnUpdate)
      (st : ManagerState) :
      Step st (handleConnectionUpdate sid sock now ev st)
  | cleanup (now : Nat) (sid : String) (st : ManagerState) :
      Step st (cleanupSession now sid st)
  | update (sid : String) (u : SessionUpdate) (st : ManagerState) :
      Step st (updateSession sid u st)

inductive Reachable (maxPerIP timeout : Nat) : ManagerState → Prop where
  | init : Reachable maxPerIP timeout (initialState maxPerIP timeout)
  | step {st st' : ManagerState} : Reachable maxPerIP timeout st → Step st st' →
      Reachable maxPerIP timeout st'

/-! ## Concrete states used by the witnesses -/

def demoSocket : Socket := { ws := some { wsId := 7, readyState := 1 } }

def demoSession : Session :=
  { id := "S1", ip := "1.2.3.4", phone := "923123456789", startedAt := 0,
    status := "initializing", socket := some demoSocket, pairingCode := none,
    sessionError := none }

def demoState : ManagerState :=
  { maxSessionsPerIP := 3, sessionTimeout := 300000,
    activeSessions := [("S1", demoSession)], archive := [],
    closedSockets := [], tempDirs := ["S1"], timers := [(300000, "S1")] }

def demoEnvOk : ExternalEnv :=
  { connectError := none, registered := false,
    codeResult := Except.ok "123-456", sock := demoSocket }

def demoEnvFail : ExternalEnv :=
  { connectError := none, registered := false,
    codeResult := Except.error "boom", sock := demoSocket }

def demoEnvRegistered : ExternalEnv :=
  { connectError := none, registered := true,
    codeResult := Except.ok "123-456", sock := demoSocket }

example :
    (handlePairRequest "923123456789" "S1" "9.9.9.9" 0 demoEnvOk
      (initialState 3 300000)).1.httpStatus = 200 := by decide

example :
    ((handlePairRequest "923123456789" "S1" "9.9.9.9" 0 demoEnvOk
      (initialState 3 300000)).2.activeSessions.map
        (fun p => p.2.status)) = ["paired"] := by decide

example :
    (handlePairRequest "123" "S1" "9.9.9.9" 0 demoEnvOk
      (initialState 3 300000)).1.httpStatus = 400 := by decide

example :
    (initiateWhatsAppPairing "923123456789" "S1" demoEnvRegistered demoState).1 = none := by
  decide

example : cleanupSession 5 "S2" demoState = demoState := by decide

/-! ## Derived quantities used by the theorems below -/

def countKey {α : Type} (k : String) (l : List (String × α)) : Nat :=
  (l.filter (fun p => p.1 == k)).length

def countryDigits : List Char := ['1', '2', '3', '4', '5', '6', '7', '8', '9']

def mapGetD {α : Type} (k : String) (l : List (String × α)) (d : α) : α :=
  (mapGet k l).getD d

def statusCount (name : String) (st : ManagerState) : Nat :=
  ((st.activeSessions.map Prod.snd).filter (fun s => s.status == name)).length

def pairsIpCount (ip : String) (l : List (String × Session)) : Nat :=
  ((l.map Prod.snd).filter (fun s => s.ip == ip)).length

def newSession (now : Nat) (sessionId ip phone : String) : Session :=
  { id := sessionId, ip := ip, phone := phone, startedAt := now,
    status := "initializing", socket := none, pairingCode := none,
    sessionError := none }

/-! ## Lemmas about the Map model -/

theorem mapGet_mapSet_self {α : Type} (k : String) (v : α) (l : List (String × α)) :
    mapGet k (mapSet k v l) = some v := by
  induction l with
  | nil => simp [mapSet, mapGet]
  | cons p rest ih =>
    obtain ⟨k0, v0⟩ := p
    by_cases h : k0 = k
    · simp [mapSet, h, mapGet]
    · simp [mapSet, h, mapGet, ih]

theorem mapGet_mapSet_ne {α : Type} (k k0 : String) (v : α) (l : List (String × α))
    (h : k ≠ k0) : mapGet k (mapSet k0 v l) = mapGet k l := by
  induction l with
  | nil => simp [mapSet, mapGet, Ne.symm h]
  | cons p rest ih =>
    obtain ⟨k1, v1⟩ := p
    by_cases h1 : k1 = k0
    · subst h1
      simp [mapSet, mapGet, Ne.symm h]
    · by_cases h2 : k1 = k
      · subst h2
        simp [mapSet, h1, mapGet]
      · simp [mapSet, h1, mapGet, h2, ih]

theorem mapGet_eq_none_of_not_mem {α : Type} (k : String) (l : List (String × α))
    (h : k ∉ l.map Prod.fst) : mapGet k l = none := by
  induction l with
  | nil => simp [mapGet]
  | cons p rest ih =>
    obtain ⟨k0, v0⟩ := p
    simp only [List.map_cons, List.mem_cons] at h
    push_neg at h
    simp [mapGet, Ne.symm h.1, ih h.2]

theorem mapGet_mapDelete_self {α : Type} (k : String) (l : List (String × α))
    (h : (l.map Prod.fst).Nodup) : mapGet k (mapDelete k l) = none := by
  induction l with
  | nil => simp [mapDelete, mapGet]
  | cons p rest ih =>
    obtain ⟨k0, v0⟩ := p
    simp only [List.map_cons, List.nodup_cons] at h
    by_cases h1 : k0 = k
    · subst h1
      simp only [mapDelete, if_pos rfl]
      exact mapGet_eq_none_of_not_mem k0 rest h.1
    · simp [mapDelete, h1, mapGet, h1, ih h.2]

theorem mapDelete_mapSet_fresh {α : Type} (k : String) (v : α) (l : List (String × α))
    (h : mapGet k l = none) : mapDelete k (mapSet k v l) = l := by
  induction l with
  | nil => simp [mapSet, mapDelete]
  | cons p rest ih =>
    obtain ⟨k0, v0⟩ := p
    by_cases h1 : k0 = k
    · simp [mapGet, h1] at h
    · simp only [mapGet, if_neg h1] at h
      simp [mapSet, h1, mapDelete, ih h]


theorem countKey_eq_zero_of_not_mem {α : Type} (k : String) (l : List (String × α))
    (h : k ∉ l.map Prod.fst) : countKey k l = 0 := by
  induction l with
  | nil => simp [countKey]
  | cons p rest ih =>
    obtain ⟨k0, v0⟩ := p
    simp only [List.map_cons, List.mem_cons] at h
    push_neg at h
    simpa [countKey, Ne.symm h.1] using ih h.2

theorem countKey_mapSet_nodup {α : Type} (k : String) (v : α) (l : List (String × α))
    (h : (l.map Prod.fst).Nodup) : countKey k (mapSet k v l) = 1 := by
  induction l with
  | nil => simp [mapSet, countKey]
  | cons p rest ih =>
    obtain ⟨k0, v0⟩ := p
    simp only [List.map_cons, List.nodup_cons] at h
    by_cases h1 : k0 = k
    · subst h1
      have h0 := countKey_eq_zero_of_not_mem k0 rest h.1
      simp [mapSet, countKey] at h0 ⊢
      exact h0
    · simpa [mapSet, h1, countKey, h1] using ih h.2

/-! ## C7: the validator -/

/-- The nine country-code digits accepted by validatePhoneNumber. -/

theorem startsOk_iff (s : String) :
    (startsWithChar s '1' || startsWithChar s '2' || startsWithChar s '3' ||
     startsWithChar s '4' || startsWithChar s '5' || startsWithChar s '6' ||
     startsWithChar s '7' || startsWithChar s '8' || startsWithChar s '9') = true ↔
    ∃ c rest, s.data = c :: rest ∧ c ∈ countryDigits := by
  cases hs : s.data with
  | nil => simp [startsWithChar, hs]
  | cons c rest =>
    simp only [startsWithChar, hs, Bool.or_eq_true, beq_iff_eq]
    constructor
    · intro h
      refine ⟨c, rest, rfl, ?_⟩
      simp only [countryDigits, List.mem_cons, List.not_mem_nil, or_false]
      tauto
    · rintro ⟨c1, rest1, heq, hmem⟩
      injection heq with h1 h2
      subst h1
      simp only [countryDigits, List.mem_cons, List.not_mem_nil, or_false] at hmem
      tauto

/-- C7: validatePhoneNumber is a pure function that strips every
non-digit character from its input; it accepts exactly the inputs
whose stripped form has between 10 and 15 digits and begins with one
of the digits 1 through 9 (the empty stripped form is already covered
by the lower length bound), and on acceptance returns the stripped
digits-only string. -/
theorem validatePhoneNumber_correct (phone : String) :
    (∀ r, validatePhoneNumber phone = some r ↔
      (r = stripNonDigits phone ∧ 10 ≤ r.length ∧ r.length ≤ 15 ∧
       ∃ c rest, r.data = c :: rest ∧ c ∈ countryDigits)) ∧
    (∀ r, validatePhoneNumber phone = some r → ∀ c ∈ r.data, c.isDigit = true) := by
  have hmain : ∀ r, validatePhoneNumber phone = some r ↔
      (r = stripNonDigits phone ∧ 10 ≤ r.length ∧ r.length ≤ 15 ∧
       ∃ c rest, r.data = c :: rest ∧ c ∈ countryDigits) := by
    intro r
    simp only [validatePhoneNumber]
    split_ifs with h1 h2 h3
    · constructor
      · intro h
        exact absurd h (by simp)
      · rintro ⟨rfl, hlen, -, -⟩
        rw [h1] at hlen
        exact absurd hlen (by decide)
    · constructor
      · intro h
        exact absurd h (by simp)
      · rintro ⟨rfl, hlen1, hlen2, -⟩
        simp only [Bool.or_eq_true, decide_eq_true_eq] at h2
        omega
    · constructor
      · intro h
        have hr : r = stripNonDigits phone := (Option.some.injEq _ _ ▸ h).symm
        subst hr
        refine ⟨rfl, ?_, ?_, (startsOk_iff _).mp h3⟩
        · simp only [Bool.or_eq_true, decide_eq_true_eq, not_or] at h2
          omega
        · simp only [Bool.or_eq_true, decide_eq_true_eq, not_or] at h2
          omega
      · rintro ⟨rfl, -, -, -⟩
        rfl
    · constructor
      · intro h
        exact absurd h (by simp)
      · rintro ⟨rfl, -, -, hstarts⟩
        exact absurd ((startsOk_iff _).mpr hstarts) h3
  refine ⟨hmain, ?_⟩
  intro r h c hc
  have hr : r = stripNonDigits phone := ((hmain r).mp h).1
  subst hr
  exact (List.mem_filter.mp hc).2

/-! ## C1 and C10: cleanupSession -/

theorem cleanupSession_of_none (now : Nat) (sid : String) (st : ManagerState)
    (h : mapGet sid st.activeSessions = none) : cleanupSession now sid st = st := by
  simp [cleanupSession, h]

/-- C1: cleanupSession is idempotent.  Running it twice is the same
state transformation as running it once; when the session is live the
first run removes it from the live Map, closes a live ws handle if one
is attached, removes the temp credential directory, and leaves exactly
one archival record carrying the final session data and duration.  The
Nodup hypotheses say the two Maps have unique keys, which the ES Map
guarantees structurally. -/
theorem cleanupSession_idempotent (n1 n2 : Nat) (sid : String) (st : ManagerState)
    (hA : (st.activeSessions.map Prod.fst).Nodup)
    (hR : (st.archive.map Prod.fst).Nodup) :
    cleanupSession n2 sid (cleanupSession n1 sid st) = cleanupSession n1 sid st ∧
    ∀ s, mapGet sid st.activeSessions = some s →
      mapGet sid (cleanupSession n1 sid st).activeSessions = none ∧
      countKey sid (cleanupSession n1 sid st).archive = 1 ∧
      mapGet sid (cleanupSession n1 sid st).archive =
        some { session := s, endedAt := n1, duration := n1 - s.startedAt } ∧
      sid ∉ (cleanupSession n1 sid st).tempDirs ∧
      (∀ sock w, s.socket = some sock → sock.ws = some w →
        w.wsId ∈ (cleanupSession n1 sid st).closedSockets) := by
  cases hs : mapGet sid st.activeSessions with
  | none =>
    have h1 : cleanupSession n1 sid st = st := cleanupSession_of_none n1 sid st hs
    rw [h1]
    exact ⟨cleanupSession_of_none n2 sid st hs, fun s hcontra =>
      absurd hcontra (by simp)⟩
  | some s0 =>
    have hact : (cleanupSession n1 sid st).activeSessions = mapDelete sid st.activeSessions := by
      simp [cleanupSession, hs]
    have hnone : mapGet sid (cleanupSession n1 sid st).activeSessions = none := by
      rw [hact]
      exact mapGet_mapDelete_self sid _ hA
    refine ⟨cleanupSession_of_none n2 sid _ hnone, ?_⟩
    intro s hsome
    obtain rfl : s0 = s := by
      injection hsome
    have harch : (cleanupSession n1 sid st).archive =
        mapSet sid { session := s0, endedAt := n1, duration := n1 - s0.startedAt } st.archive := by
      simp [cleanupSession, hs]
    refine ⟨hnone, ?_, ?_, ?_, ?_⟩
    · rw [harch]
      exact countKey_mapSet_nodup sid _ st.archive hR
    · rw [harch]
      exact mapGet_mapSet_self sid _ st.archive
    · simp [cleanupSession, hs]
    · intro sock w hsock hw
      simp [cleanupSession, hs, hsock, hw]

theorem cleanupSession_idempotent_witness :
    cleanupSession 6 "S1" (cleanupSession 5 "S1" demoState) = cleanupSession 5 "S1" demoState ∧
    mapGet "S1" (cleanupSession 5 "S1" demoState).activeSessions = none ∧
    countKey "S1" (cleanupSession 5 "S1" demoState).archive = 1 ∧
    "S1" ∉ (cleanupSession 5 "S1" demoState).tempDirs ∧
    7 ∈ (cleanupSession 5 "S1" demoState).closedSockets := by
  obtain ⟨h1, h2⟩ := cleanupSession_idempotent 5 6 "S1" demoState (by decide) (by decide)
  obtain ⟨ha, hb, hc, hd, he⟩ := h2 demoSession (by decide)
  exact ⟨h1, ha, hb, hd, he demoSocket { wsId := 7, readyState := 1 } rfl rfl⟩

/-- C10: for an identifier that is not in the live Map, including ids
for which no session was ever created, cleanupSession changes nothing
at all, and the admin cleanup endpoint that forwards an arbitrary
caller-supplied sessionId to cleanupSession therefore changes nothing
either. -/
theorem cleanupSession_missing_noop (now : Nat) (sid key : String) (st : ManagerState)
    (h : mapGet sid st.activeSessions = none) :
    cleanupSession now sid st = st ∧
    (handleCleanupRequest key key (some sid) now st).2 = st := by
  have h1 : cleanupSession now sid st = st := cleanupSession_of_none now sid st h
  refine ⟨h1, ?_⟩
  simp [handleCleanupRequest, h1]

theorem cleanupSession_missing_noop_witness :
    cleanupSession 42 "GHOST" demoState = demoState ∧
    (handleCleanupRequest "K" "K" (some "GHOST") 42 demoState).2 = demoState :=
  cleanupSession_missing_noop 42 "GHOST" "K" demoState (by decide)

/-! ## C5: terminal statuses -/

/-- C5 counterexample: a session whose pairing-code request failed has
the terminal status failed, yet the connection.update handler on a
later open event moves it to connected, so the code does allow a
transition out of a terminal status. -/
theorem terminal_status_not_guarded :
    ((mapGet "S1" ((handlePairRequest "923123456789" "S1" "1.1.1.1" 0 demoEnvFail
        (initialState 3 300000)).2).activeSessions).map Session.status = some "failed") ∧
    ((mapGet "S1" (handleConnectionUpdate "S1" demoSocket 50 ConnUpdate.connOpen
        ((handlePairRequest "923123456789" "S1" "1.1.1.1" 0 demoEnvFail
        (initialState 3 300000)).2)).activeSessions).map Session.status =
      some "connected") := by
  decide

/-- C5 (amended): updateSession applies its merge unconditionally, so a
live session in a terminal status can still transition, as the
counterexample shows; what does hold is that once a session has been
removed from the live set, updateSession is a no-op and connection
events neither change the archive nor bring the session back. -/
theorem no_transitions_after_cleanup (sid : String) (u : SessionUpdate) (sock : Socket)
    (now : Nat) (ev : ConnUpdate) (st : ManagerState)
    (h : mapGet sid st.activeSessions = none) :
    updateSession sid u st = st ∧
    mapGet sid (handleConnectionUpdate sid sock now ev st).activeSessions = none ∧
    (handleConnectionUpdate sid sock now ev st).archive = st.archive := by
  have hu : ∀ u1, updateSession sid u1 st = st := fun u1 => by simp [updateSession, h]
  refine ⟨hu u, ?_⟩
  have hconn : (handleConnectionUpdate sid sock now ev st).activeSessions = st.activeSessions ∧
      (handleConnectionUpdate sid sock now ev st).archive = st.archive := by
    cases ev with
    | connOpen =>
      simp only [handleConnectionUpdate, hu]
      cases hws : sock.ws with
      | none => simp
      | some w =>
        by_cases hr : w.readyState ≠ 3
        · simp [hr]
        · simp [hr]
    | connClose lo em =>
      cases lo with
      | true => simp [handleConnectionUpdate, hu]
      | false =>
        cases em with
        | none => simp [handleConnectionUpdate]
        | some e => simp [handleConnectionUpdate, hu]
  exact ⟨by rw [hconn.1]; exact h, hconn.2⟩

theorem no_transitions_after_cleanup_witness :
    updateSession "S9" noUpdate (initialState 3 300000) = initialState 3 300000 ∧
    mapGet "S9" (handleConnectionUpdate "S9" demoSocket 1 ConnUpdate.connOpen
      (initialState 3 300000)).activeSessions = none ∧
    (handleConnectionUpdate "S9" demoSocket 1 ConnUpdate.connOpen
      (initialState 3 300000)).archive = (initialState 3 300000).archive :=
  no_transitions_after_cleanup "S9" noUpdate demoSocket 1 ConnUpdate.connOpen
    (initialState 3 300000) (by decide)

/-! ## C6: the auto-expiry timer -/

/-- C6 counterexample: when the auto-cleanup timer of a session that
received no events fires, the session is removed from the live set,
but its archived status is still initializing; the code never assigns
an expired status. -/
theorem expired_status_never_assigned :
    (mapGet "S1" (cleanupSession 300000 "S1" (createSession 0 "S1" "1.1.1.1" "923123456789"
        (initialState 3 300000))).archive).map (fun r => r.session.status) =
      some "initializing" ∧
    ¬ (mapGet "S1" (cleanupSession 300000 "S1" (createSession 0 "S1" "1.1.1.1" "923123456789"
        (initialState 3 300000))).archive).map (fun r => r.session.status) =
      some "expired" ∧
    mapGet "S1" (cleanupSession 300000 "S1" (createSession 0 "S1" "1.1.1.1" "923123456789"
        (initialState 3 300000))).activeSessions = none := by
  decide

/-- C6 (amended): createSession schedules the auto-cleanup timer at
exactly the configured session timeout after creation; when it fires
for a session that received no events, the session is removed from the
live set and archived with duration equal to the timeout, but with its
last live status initializing rather than an expired status. -/
theorem timeout_cleanup (t0 : Nat) (sid ip ph : String) (st : ManagerState)
    (hfresh : mapGet sid st.activeSessions = none) :
    (t0 + st.sessionTimeout, sid) ∈ (createSession t0 sid ip ph st).timers ∧
    mapGet sid (cleanupSession (t0 + st.sessionTimeout) sid
      (createSession t0 sid ip ph st)).activeSessions = none ∧
    (mapGet sid (cleanupSession (t0 + st.sessionTimeout) sid
      (createSession t0 sid ip ph st)).archive).map (fun r => r.session.status) =
      some "initializing" ∧
    (mapGet sid (cleanupSession (t0 + st.sessionTimeout) sid
      (createSession t0 sid ip ph st)).archive).map ArchivedSession.duration =
      some st.sessionTimeout := by
  have hget : mapGet sid (createSession t0 sid ip ph st).activeSessions =
      some { id := sid, ip := ip, phone := ph, startedAt := t0,
             status := "initializing", socket := none, pairingCode := none,
             sessionError := none } := by
    simp [createSession, mapGet_mapSet_self]
  refine ⟨?_, ?_, ?_, ?_⟩
  · simp [createSession]
  · simp only [cleanupSession, hget]
    simp only [createSession]
    rw [mapDelete_mapSet_fresh sid _ _ hfresh]
    exact hfresh
  · simp only [cleanupSession, hget]
    rw [mapGet_mapSet_self]
    rfl
  · simp only [cleanupSession, hget]
    rw [mapGet_mapSet_self]
    simp

theorem timeout_cleanup_witness :
    (0 + 300000, "S1") ∈ (createSession 0 "S1" "1.1.1.1" "923123456789"
      (initialState 3 300000)).timers ∧
    mapGet "S1" (cleanupSession (0 + 300000) "S1" (createSession 0 "S1" "1.1.1.1"
      "923123456789" (initialState 3 300000))).activeSessions = none ∧
    (mapGet "S1" (cleanupSession (0 + 300000) "S1" (createSession 0 "S1" "1.1.1.1"
      "923123456789" (initialState 3 300000))).archive).map (fun r => r.session.status) =
      some "initializing" ∧
    (mapGet "S1" (cleanupSession (0 + 300000) "S1" (createSession 0 "S1" "1.1.1.1"
      "923123456789" (initialState 3 300000))).archive).map ArchivedSession.duration =
      some 300000 :=
  timeout_cleanup 0 "S1" "1.1.1.1" "923123456789" (initialState 3 300000) (by decide)

/-! ## C3 and C4: the pairing-code paths -/

theorem mapGet_updateSession (sid : String) (u : SessionUpdate) (st : ManagerState) :
    mapGet sid (updateSession sid u st).activeSessions =
    (mapGet sid st.activeSessions).map (fun s => applyUpdate s u) := by
  cases h : mapGet sid st.activeSessions with
  | none => simp [updateSession, h]
  | some s => simp [updateSession, h, mapGet_mapSet_self]

theorem validate_empty_none : validatePhoneNumber "" = none := by decide

/-- C3 counterexample: on the successful scenario-A run (valid number,
unregistered credentials, collaborator code 123-456) the response is
200 with success true and the code, but the session status the route
stores is the string paired, not code_issued as the claim states. -/
theorem success_sets_paired_not_code_issued :
    (handlePairRequest "923123456789" "S1" "9.9.9.9" 0 demoEnvOk
      (initialState 3 300000)).1.httpStatus = 200 ∧
    (handlePairRequest "923123456789" "S1" "9.9.9.9" 0 demoEnvOk
      (initialState 3 300000)).1.success = some true ∧
    (handlePairRequest "923123456789" "S1" "9.9.9.9" 0 demoEnvOk
      (initialState 3 300000)).1.code = some "123-456" ∧
    (mapGet "S1" (handlePairRequest "923123456789" "S1" "9.9.9.9" 0 demoEnvOk
      (initialState 3 300000)).2.activeSessions).map Session.status = some "paired" ∧
    ¬ (mapGet "S1" (handlePairRequest "923123456789" "S1" "9.9.9.9" 0 demoEnvOk
      (initialState 3 300000)).2.activeSessions).map Session.status = some "code_issued" := by
  decide

/-- C3 (amended): when the external credential state is unregistered
and the collaborator issues a pairing code, the route answers 200 with
success true and that code, and the session status is set to the
string paired (the source literal; the specification names this
transition code_issued) with the code stored on the session. -/
theorem pairing_success_path (raw sid ip vp code : String) (now : Nat) (env : ExternalEnv)
    (st : ManagerState)
    (hval : validatePhoneNumber (stripNonDigits raw) = some vp)
    (hcap : canCreateSession ip st = true)
    (hconn : env.connectError = none)
    (hreg : env.registered = false)
    (hcode : env.codeResult = Except.ok code) :
    (handlePairRequest raw sid ip now env st).1.httpStatus = 200 ∧
    (handlePairRequest raw sid ip now env st).1.success = some true ∧
    (handlePairRequest raw sid ip now env st).1.code = some code ∧
    (mapGet sid (handlePairRequest raw sid ip now env st).2.activeSessions).map
      Session.status = some "paired" ∧
    (mapGet sid (handlePairRequest raw sid ip now env st).2.activeSessions).map
      Session.pairingCode = some (some code) := by
  have hne : stripNonDigits raw ≠ "" := by
    intro h0
    rw [h0, validate_empty_none] at hval
    exact absurd hval (by simp)
  have hcap2 : ¬ canCreateSession ip st = false := by simp [hcap]
  simp only [handlePairRequest, if_neg hne, hval, if_neg hcap2, initiateWhatsAppPairing,
    hconn, hreg, hcode, if_pos rfl]
  have hA : mapGet sid (createSession now sid ip vp st).activeSessions =
      some { id := sid, ip := ip, phone := vp, startedAt := now,
             status := "initializing", socket := none, pairingCode := none,
             sessionError := none } := by
    simp [createSession, mapGet_mapSet_self]
  refine ⟨rfl, rfl, rfl, ?_, ?_⟩ <;>
    simp [mapGet_updateSession, updateSession, createSession, mapGet_mapSet_self, applyUpdate]

theorem pairing_success_path_witness :
    (handlePairRequest "923123456789" "S7" "8.8.8.8" 0 demoEnvOk
      (initialState 3 300000)).1.httpStatus = 200 ∧
    (handlePairRequest "923123456789" "S7" "8.8.8.8" 0 demoEnvOk
      (initialState 3 300000)).1.success = some true ∧
    (handlePairRequest "923123456789" "S7" "8.8.8.8" 0 demoEnvOk
      (initialState 3 300000)).1.code = some "123-456" ∧
    (mapGet "S7" (handlePairRequest "923123456789" "S7" "8.8.8.8" 0 demoEnvOk
      (initialState 3 300000)).2.activeSessions).map Session.status = some "paired" ∧
    (mapGet "S7" (handlePairRequest "923123456789" "S7" "8.8.8.8" 0 demoEnvOk
      (initialState 3 300000)).2.activeSessions).map Session.pairingCode =
      some (some "123-456") :=
  pairing_success_path "923123456789" "S7" "8.8.8.8" "923123456789" "123-456" 0 demoEnvOk
    (initialState 3 300000) (by decide) (by decide) rfl rfl rfl

/-- C4: when the stored credential state already says registered,
initiateWhatsAppPairing requests no code but also falls off the end of
the function, so the promise resolves to undefined instead of the
documented already-registered failure outcome, and the route, faulting
on reading the success field of undefined, answers 500 INTERNAL_ERROR;
the sibling source file returns the failure object explicitly on this
path, so the pair.js behaviour is a slip. -/
theorem registered_path_returns_undefined (phoneNumber sid raw ip vp : String)
    (now : Nat) (env : ExternalEnv) (st : ManagerState)
    (h1 : env.connectError = none) (h2 : env.registered = true)
    (hval : validatePhoneNumber (stripNonDigits raw) = some vp)
    (hcap : canCreateSession ip st = true) :
    (initiateWhatsAppPairing phoneNumber sid env st).1 = none ∧
    (∀ out : POutcome, (initiateWhatsAppPairing phoneNumber sid env st).1 ≠ some out) ∧
    (handlePairRequest raw sid ip now env st).1.httpStatus = 500 ∧
    (handlePairRequest raw sid ip now env st).1.errorCode = some "INTERNAL_ERROR" := by
  have hmain : ∀ st0 : ManagerState, (initiateWhatsAppPairing phoneNumber sid env st0).1 = none := by
    intro st0
    simp [initiateWhatsAppPairing, h1, h2]
  have hne : stripNonDigits raw ≠ "" := by
    intro h0
    rw [h0, validate_empty_none] at hval
    exact absurd hval (by simp)
  have hcap2 : ¬ canCreateSession ip st = false := by simp [hcap]
  refine ⟨hmain st, fun out => by rw [hmain st]; simp, ?_, ?_⟩ <;>
    simp only [handlePairRequest, if_neg hne, hval, if_neg hcap2, initiateWhatsAppPairing,
      h1, h2, if_pos rfl] <;> rfl

theorem registered_path_returns_undefined_witness :
    (initiateWhatsAppPairing "923123456789" "S8" demoEnvRegistered demoState).1 = none ∧
    (∀ out : POutcome,
      (initiateWhatsAppPairing "923123456789" "S8" demoEnvRegistered demoState).1 ≠ some out) ∧
    (handlePairRequest "923123456789" "S8" "7.7.7.7" 0 demoEnvRegistered demoState).1.httpStatus
      = 500 ∧
    (handlePairRequest "923123456789" "S8" "7.7.7.7" 0 demoEnvRegistered
      demoState).1.errorCode = some "INTERNAL_ERROR" :=
  registered_path_returns_undefined "923123456789" "S8" "923123456789" "7.7.7.7"
    "923123456789" 0 demoEnvRegistered demoState rfl rfl (by decide) (by decide)

/-! ## C8: the session-id alphabet distribution -/

/-- C8 counterexample: reducing a random byte modulo 62 does not give
every alphabet character the same number of byte preimages: the
character A (alphabet position 0) has five preimages in 0..255 while
the character 9 (position 61) has four, so the per-position
distribution is not uniform. -/
theorem sessionId_distribution_not_uniform :
    preimageCount 'A' = 5 ∧ preimageCount '9' = 4 ∧
    ¬ ∀ c ∈ sessionIdChars, ∀ d ∈ sessionIdChars, preimageCount c = preimageCount d := by
  refine ⟨by decide, by decide, fun h => ?_⟩
  exact absurd (h 'A' (by decide) '9' (by decide)) (by decide)

/-- C8 (amended): generateSessionId over the default 12 random bytes
returns a 12-character string whose characters all come from the
62-character alphanumeric alphabet and are drawn from a
cryptographically strong source, but the byte-to-character reduction
is only approximately uniform: the first 8 alphabet characters have 5
of the 256 byte values as preimages and the remaining 54 have 4. -/
theorem generateSessionId_shape (bytes : List Nat) (h : bytes.length = 12) :
    (generateSessionId bytes).length = 12 ∧
    (∀ c ∈ (generateSessionId bytes).data, c ∈ sessionIdChars) ∧
    sessionIdChars.map preimageCount = List.replicate 8 5 ++ List.replicate 54 4 := by
  refine ⟨?_, ?_, by decide⟩
  · have : (generateSessionId bytes).length = (bytes.map byteToChar).length := rfl
    rw [this, List.length_map, h]
  · intro c hc
    have hc2 : c ∈ bytes.map byteToChar := hc
    obtain ⟨b, hb, rfl⟩ := List.mem_map.mp hc2
    have haux : ∀ m, m < 62 → sessionIdChars.getD m 'A' ∈ sessionIdChars := by decide
    have hlen : sessionIdChars.length = 62 := by decide
    unfold byteToChar
    rw [hlen]
    exact haux _ (Nat.mod_lt _ (by norm_num))

theorem generateSessionId_shape_witness :
    (generateSessionId [0, 10, 20, 30, 40, 50, 60, 70, 80, 90, 100, 110]).length = 12 ∧
    (∀ c ∈ (generateSessionId [0, 10, 20, 30, 40, 50, 60, 70, 80, 90, 100, 110]).data,
      c ∈ sessionIdChars) ∧
    sessionIdChars.map preimageCount = List.replicate 8 5 ++ List.replicate 54 4 :=
  generateSessionId_shape [0, 10, 20, 30, 40, 50, 60, 70, 80, 90, 100, 110] (by decide)

/-! ## C9: getStats -/



theorem toHex8_length (n : Nat) : (toHex8 n).length = 8 := by
  simp [toHex8]

theorem hashPhoneNumber_length (p : String) : (hashPhoneNumber p).length = 16 := by
  have h64 : (sha256Hex (p.data.map Char.toNat)).data.length = 64 := by
    have hdata : (sha256Hex (p.data.map Char.toNat)).data =
        toHex8 (sha256Words (p.data.map Char.toNat)).ha ++
        toHex8 (sha256Words (p.data.map Char.toNat)).hb ++
        toHex8 (sha256Words (p.data.map Char.toNat)).hc ++
        toHex8 (sha256Words (p.data.map Char.toNat)).hd ++
        toHex8 (sha256Words (p.data.map Char.toNat)).he ++
        toHex8 (sha256Words (p.data.map Char.toNat)).hf ++
        toHex8 (sha256Words (p.data.map Char.toNat)).hg ++
        toHex8 (sha256Words (p.data.map Char.toNat)).hh := rfl
    rw [hdata]
    simp [List.length_append, toHex8_length]
  have hmk : (hashPhoneNumber p).length =
      ((sha256Hex (p.data.map Char.toNat)).data.take 16).length := rfl
  rw [hmk, List.length_take, h64]
  decide

theorem mapGetD_bumpStatus (name s : String) (acc : List (String × Nat)) :
    mapGetD name (bumpStatus acc s) 0 =
    mapGetD name acc 0 + (if s = name then 1 else 0) := by
  by_cases h : s = name
  · subst h
    cases hm : mapGet s acc with
    | none => simp [bumpStatus, hm, mapGetD, mapGet_mapSet_self]
    | some n => simp [bumpStatus, hm, mapGetD, mapGet_mapSet_self]
  · have hne : name ≠ s := fun hh => h hh.symm
    cases hm : mapGet s acc with
    | none => simp [bumpStatus, hm, mapGetD, mapGet_mapSet_ne name s _ _ hne, h]
    | some n => simp [bumpStatus, hm, mapGetD, mapGet_mapSet_ne name s _ _ hne, h]

theorem mapGetD_foldl_bump (name : String) (l : List Session) (acc : List (String × Nat)) :
    mapGetD name (l.foldl (fun a s => bumpStatus a s.status) acc) 0 =
    mapGetD name acc 0 + (l.filter (fun s => s.status == name)).length := by
  induction l generalizing acc with
  | nil => simp
  | cons s rest ih =>
    simp only [List.foldl_cons, ih, mapGetD_bumpStatus]
    by_cases h : s.status = name
    · simp only [List.filter_cons, h, if_pos rfl, beq_self_eq_true, if_true,
        List.length_cons]
      omega
    · have : (s.status == name) = false := by simp [h]
      simp only [List.filter_cons, this, if_neg h, Bool.false_eq_true, if_false]
      omega

/-- C9: getStats reports the live total, the per-status counts, and at
most five recent sessions; every phone field in the sample is the
hashPhoneNumber digest of the session phone, and because the digest
has 16 characters while any stored phone has at most 15, no raw phone
number of a live session appears as a phone field of the sample. -/
theorem getStats_correct (now : Nat) (st : ManagerState)
    (hlen : ∀ s ∈ st.activeSessions.map Prod.snd, s.phone.length ≤ 15) :
    (getStats now st).total = st.activeSessions.length ∧
    (∀ name, mapGetD name (getStats now st).byStatus 0 = statusCount name st) ∧
    (getStats now st).recent.length ≤ 5 ∧
    (∀ e ∈ (getStats now st).recent, ∃ s ∈ st.activeSessions.map Prod.snd,
      e.id = s.id ∧ e.phone = hashPhoneNumber s.phone ∧ e.status = s.status ∧
      e.age = (now - s.startedAt) / 1000) ∧
    (∀ e ∈ (getStats now st).recent, ∀ s ∈ st.activeSessions.map Prod.snd,
      e.phone ≠ s.phone) := by
  refine ⟨rfl, ?_, ?_, ?_, ?_⟩
  · intro name
    have hfold := mapGetD_foldl_bump name (st.activeSessions.map Prod.snd) []
    have hnil : mapGetD name ([] : List (String × Nat)) 0 = 0 := rfl
    simp only [getStats, hfold, hnil, statusCount, Nat.zero_add]
  · simp only [getStats, lastN, List.length_map, List.length_drop]
    omega
  · intro e he
    simp only [getStats, lastN] at he
    obtain ⟨s, hs, rfl⟩ := List.mem_map.mp he
    exact ⟨s, List.drop_subset _ _ hs, rfl, rfl, rfl, rfl⟩
  · intro e he s hsmem
    simp only [getStats, lastN] at he
    obtain ⟨q, hq, rfl⟩ := List.mem_map.mp he
    intro hEq
    have h16 : (hashPhoneNumber q.phone).length = 16 := hashPhoneNumber_length _
    have hEq2 : hashPhoneNumber q.phone = s.phone := hEq
    rw [hEq2] at h16
    have := hlen s hsmem
    omega

theorem getStats_correct_witness :
    (getStats 77 demoState).total = demoState.activeSessions.length ∧
    mapGetD "initializing" (getStats 77 demoState).byStatus 0 =
      statusCount "initializing" demoState ∧
    (getStats 77 demoState).recent.length ≤ 5 ∧
    (∀ e ∈ (getStats 77 demoState).recent, ∀ s ∈ demoState.activeSessions.map Prod.snd,
      e.phone ≠ s.phone) := by
  obtain ⟨h1, h2, h3, h4, h5⟩ := getStats_correct 77 demoState (by decide)
  exact ⟨h1, h2 "initializing", h3, h5⟩

/-! ## C2: capacity accounting -/


theorem ipCount_def (ip : String) (st : ManagerState) :
    ipCount ip st = pairsIpCount ip st.activeSessions := rfl

theorem pairsIpCount_cons (ip k0 : String) (v0 : Session) (l : List (String × Session)) :
    pairsIpCount ip ((k0, v0) :: l) =
    (if v0.ip == ip then 1 else 0) + pairsIpCount ip l := by
  simp only [pairsIpCount, List.map_cons, List.filter_cons]
  cases h : (v0.ip == ip) with
  | true => simp [h, Nat.add_comm]
  | false => simp [h]

theorem pairsIpCount_mapSet_le (ip k : String) (v : Session) (l : List (String × Session)) :
    pairsIpCount ip (mapSet k v l) ≤ pairsIpCount ip l + 1 := by
  induction l with
  | nil =>
    simp only [mapSet, pairsIpCount, List.map_cons, List.map_nil, List.filter_cons]
    cases h : (v.ip == ip) <;> simp [h]
  | cons p rest ih =>
    obtain ⟨k0, v0⟩ := p
    by_cases h0 : k0 = k
    · simp only [mapSet, if_pos h0, pairsIpCount_cons]
      cases h1 : (v.ip == ip) <;> cases h2 : (v0.ip == ip) <;> simp <;> omega
    · simp only [mapSet, if_neg h0, pairsIpCount_cons]
      cases h2 : (v0.ip == ip) <;> simp <;> omega

theorem pairsIpCount_mapSet_ne (ip k : String) (v : Session) (l : List (String × Session))
    (h : (v.ip == ip) = false) : pairsIpCount ip (mapSet k v l) ≤ pairsIpCount ip l := by
  induction l with
  | nil =>
    simp only [mapSet, pairsIpCount, List.map_cons, List.map_nil, List.filter_cons, h]
    simp
  | cons p rest ih =>
    obtain ⟨k0, v0⟩ := p
    by_cases h0 : k0 = k
    · simp only [mapSet, if_pos h0, pairsIpCount_cons, h]
      cases h2 : (v0.ip == ip) <;> simp <;> omega
    · simp only [mapSet, if_neg h0, pairsIpCount_cons]
      omega

theorem pairsIpCount_mapSet_same (ip k : String) (v s : Session) (l : List (String × Session))
    (h : mapGet k l = some s) (h2 : v.ip = s.ip) :
    pairsIpCount ip (mapSet k v l) = pairsIpCount ip l := by
  induction l with
  | nil => simp [mapGet] at h
  | cons p rest ih =>
    obtain ⟨k0, v0⟩ := p
    by_cases h0 : k0 = k
    · simp only [mapGet, if_pos h0] at h
      injection h with h
      subst h
      simp only [mapSet, if_pos h0, pairsIpCount_cons, h2]
    · simp only [mapGet, if_neg h0] at h
      simp only [mapSet, if_neg h0, pairsIpCount_cons, ih h]

theorem pairsIpCount_mapDelete_le (ip k : String) (l : List (String × Session)) :
    pairsIpCount ip (mapDelete k l) ≤ pairsIpCount ip l := by
  induction l with
  | nil => simp [mapDelete]
  | cons p rest ih =>
    obtain ⟨k0, v0⟩ := p
    by_cases h0 : k0 = k
    · simp only [mapDelete, if_pos h0, pairsIpCount_cons]
      omega
    · simp only [mapDelete, if_neg h0, pairsIpCount_cons]
      omega

theorem ipCount_set_timers (ip : String) (st : ManagerState) (x : List (Nat × String)) :
    ipCount ip { st with timers := x } = ipCount ip st := rfl

theorem ipCount_set_closed (ip : String) (st : ManagerState) (x : List Nat) :
    ipCount ip { st with closedSockets := x } = ipCount ip st := rfl

theorem ipCount_set_tempDirs (ip : String) (st : ManagerState) (x : List String) :
    ipCount ip { st with tempDirs := x } = ipCount ip st := rfl

theorem ipCount_updateSession_eq (ip sid : String) (u : SessionUpdate) (st : ManagerState) :
    ipCount ip (updateSession sid u st) = ipCount ip st := by
  cases h : mapGet sid st.activeSessions with
  | none => simp [updateSession, h]
  | some s =>
    simp only [updateSession, h]
    exact pairsIpCount_mapSet_same ip sid (applyUpdate s u) s st.activeSessions h rfl

theorem max_updateSession (sid : String) (u : SessionUpdate) (st : ManagerState) :
    (updateSession sid u st).maxSessionsPerIP = st.maxSessionsPerIP := by
  cases h : mapGet sid st.activeSessions <;> simp [updateSession, h]

theorem ipCount_cleanup_le (ip : String) (now : Nat) (sid : String) (st : ManagerState) :
    ipCount ip (cleanupSession now sid st) ≤ ipCount ip st := by
  cases h : mapGet sid st.activeSessions with
  | none => simp [cleanupSession, h]
  | some s =>
    simp only [cleanupSession, h]
    exact pairsIpCount_mapDelete_le ip sid st.activeSessions

theorem max_cleanup (now : Nat) (sid : String) (st : ManagerState) :
    (cleanupSession now sid st).maxSessionsPerIP = st.maxSessionsPerIP := by
  cases h : mapGet sid st.activeSessions <;> simp [cleanupSession, h]

theorem ipCount_initiate_eq (ip p sid : String) (env : ExternalEnv) (st : ManagerState) :
    ipCount ip (initiateWhatsAppPairing p sid env st).2 = ipCount ip st := by
  cases h : env.connectError with
  | some e => simp [initiateWhatsAppPairing, h]
  | none =>
    simp only [initiateWhatsAppPairing, h]
    by_cases hr : env.registered = false
    · cases hc : env.codeResult with
      | ok code => simp [hr, hc, ipCount_updateSession_eq, ipCount_set_tempDirs]
      | error e => simp [hr, hc, ipCount_updateSession_eq, ipCount_set_tempDirs]
    · simp [hr, ipCount_updateSession_eq, ipCount_set_tempDirs]

theorem max_initiate (p sid : String) (env : ExternalEnv) (st : ManagerState) :
    (initiateWhatsAppPairing p sid env st).2.maxSessionsPerIP = st.maxSessionsPerIP := by
  cases h : env.connectError with
  | some e => simp [initiateWhatsAppPairing, h]
  | none =>
    simp only [initiateWhatsAppPairing, h]
    by_cases hr : env.registered = false
    · cases hc : env.codeResult with
      | ok code => simp [hr, hc, max_updateSession]
      | error e => simp [hr, hc, max_updateSession]
    · simp [hr, max_updateSession]


theorem ipCount_connUpdate_eq (ip sid : String) (sock : Socket) (now : Nat)
    (ev : ConnUpdate) (st : ManagerState) :
    ipCount ip (handleConnectionUpdate sid sock now ev st) = ipCount ip st := by
  cases ev with
  | connOpen =>
    simp only [handleConnectionUpdate]
    cases hws : sock.ws with
    | none => exact ipCount_updateSession_eq ip sid _ st
    | some w =>
      by_cases hr : w.readyState ≠ 3
      · simp only [if_pos hr]
        exact ipCount_updateSession_eq ip sid _ st
      · simp only [if_neg hr]
        exact ipCount_updateSession_eq ip sid _ st
  | connClose lo em =>
    cases lo with
    | true =>
      simp only [handleConnectionUpdate]
      exact ipCount_updateSession_eq ip sid _ st
    | false =>
      cases em with
      | none => rfl
      | some e =>
        simp only [handleConnectionUpdate]
        exact ipCount_updateSession_eq ip sid _ st

theorem max_connUpdate (sid : String) (sock : Socket) (now : Nat)
    (ev : ConnUpdate) (st : ManagerState) :
    (handleConnectionUpdate sid sock now ev st).maxSessionsPerIP = st.maxSessionsPerIP := by
  cases ev with
  | connOpen =>
    simp only [handleConnectionUpdate]
    cases hws : sock.ws with
    | none => exact max_updateSession sid _ st
    | some w =>
      by_cases hr : w.readyState ≠ 3
      · simp only [if_pos hr]
        exact max_updateSession sid _ st
      · simp only [if_neg hr]
        exact max_updateSession sid _ st
  | connClose lo em =>
    cases lo with
    | true =>
      simp only [handleConnectionUpdate]
      exact max_updateSession sid _ st
    | false =>
      cases em with
      | none => rfl
      | some e =>
        simp only [handleConnectionUpdate]
        exact max_updateSession sid _ st

theorem handlePair_preserves (raw sid ip0 : String) (now : Nat) (env : ExternalEnv)
    (st : ManagerState) (hInv : ∀ j, ipCount j st ≤ st.maxSessionsPerIP) :
    (handlePairRequest raw sid ip0 now env st).2.maxSessionsPerIP = st.maxSessionsPerIP ∧
    ∀ ip, ipCount ip (handlePairRequest raw sid ip0 now env st).2 ≤ st.maxSessionsPerIP := by
  by_cases h1 : stripNonDigits raw = ""
  · constructor <;> simp [handlePairRequest, h1] <;> exact fun ip => hInv ip
  · cases hv : validatePhoneNumber (stripNonDigits raw) with
    | none =>
      constructor <;> simp [handlePairRequest, if_neg h1, hv] <;> exact fun ip => hInv ip
    | some vp =>
      by_cases hc : canCreateSession ip0 st = false
      · constructor <;> simp [handlePairRequest, if_neg h1, hv, hc] <;>
          exact fun ip => hInv ip
      · have hc2 : canCreateSession ip0 st = true := by
          cases hcc : canCreateSession ip0 st
          · exact absurd hcc hc
          · rfl
        have hlt : ipCount ip0 st < st.maxSessionsPerIP := of_decide_eq_true hc2
        have hcreate : ∀ j, ipCount j (createSession now sid ip0 vp st) ≤
            st.maxSessionsPerIP := by
          intro j
          have hcc2 : ipCount j (createSession now sid ip0 vp st) =
              pairsIpCount j (mapSet sid (newSession now sid ip0 vp) st.activeSessions) := rfl
          by_cases hj : ip0 = j
          · subst hj
            have hle := pairsIpCount_mapSet_le ip0 sid (newSession now sid ip0 vp)
              st.activeSessions
            have heq : pairsIpCount ip0 st.activeSessions = ipCount ip0 st := rfl
            rw [hcc2]
            omega
          · have hne : ((newSession now sid ip0 vp).ip == j) = false := by
              have : ((ip0 == j) = false) := beq_eq_false_iff_ne.mpr hj
              simpa [newSession] using this
            have hle := pairsIpCount_mapSet_ne j sid (newSession now sid ip0 vp)
              st.activeSessions hne
            have heq : pairsIpCount j st.activeSessions = ipCount j st := rfl
            have h3 := hInv j
            rw [hcc2]
            omega
        have hmaxc : (createSession now sid ip0 vp st).maxSessionsPerIP =
            st.maxSessionsPerIP := rfl
        cases hres : (initiateWhatsAppPairing vp sid env
            (createSession now sid ip0 vp st)).1 with
        | none =>
          constructor
          · simp only [handlePairRequest, if_neg h1, hv, if_neg hc, hres]
            rw [max_initiate, hmaxc]
          · intro ip
            simp only [handlePairRequest, if_neg h1, hv, if_neg hc, hres]
            rw [ipCount_initiate_eq]
            exact hcreate ip
        | some r =>
          cases hrs : r.success with
          | true =>
            constructor
            · simp only [handlePairRequest, if_neg h1, hv, if_neg hc, hres, hrs,
                eq_self_iff_true, if_true]
              rw [max_updateSession, max_initiate, hmaxc]
            · intro ip
              simp only [handlePairRequest, if_neg h1, hv, if_neg hc, hres, hrs,
                eq_self_iff_true, if_true]
              rw [ipCount_updateSession_eq, ipCount_initiate_eq]
              exact hcreate ip
          | false =>
            constructor
            · simp only [handlePairRequest, if_neg h1, hv, if_neg hc, hres, hrs,
                Bool.false_eq_true, if_false]
              rw [max_updateSession, max_initiate, hmaxc]
            · intro ip
              simp only [handlePairRequest, if_neg h1, hv, if_neg hc, hres, hrs,
                Bool.false_eq_true, if_false]
              rw [ipCount_updateSession_eq, ipCount_initiate_eq]
              exact hcreate ip

theorem reachable_inv (m t : Nat) (st : ManagerState) (h : Reachable m t st) :
    st.maxSessionsPerIP = m ∧ ∀ ip, ipCount ip st ≤ m := by
  induction h with
  | init =>
    exact ⟨rfl, fun ip => by simp [initialState, ipCount_def, pairsIpCount]⟩
  | step hreach hstep ih =>
    rename_i st1 st2
    obtain ⟨hmax, hcnt⟩ := ih
    cases hstep with
    | pairRequest raw sid ip0 now env =>
      have hpre := handlePair_preserves raw sid ip0 now env st1
        (fun j => by rw [hmax]; exact hcnt j)
      exact ⟨hpre.1.trans hmax, fun ip => by rw [← hmax]; exact hpre.2 ip⟩
    | connectionEvent sid sock now ev =>
      refine ⟨(max_connUpdate sid sock now ev st1).trans hmax, fun ip => ?_⟩
      rw [ipCount_connUpdate_eq]
      exact hcnt ip
    | cleanup now sid =>
      refine ⟨(max_cleanup now sid st1).trans hmax, fun ip => ?_⟩
      exact (ipCount_cleanup_le ip now sid st1).trans (hcnt ip)
    | update sid u =>
      refine ⟨(max_updateSession sid u st1).trans hmax, fun ip => ?_⟩
      rw [ipCount_updateSession_eq]
      exact hcnt ip

/-- C2: in every state reachable by the registry operations, no source
address has more than maxSessionsPerIP live sessions, and
canCreateSession answers true exactly when the live count for the
address is still below the maximum.  The capacity check and
createSession run inside one pairRequest step because the source route
contains no await between them, so the pair is one atomic unit of the
event loop and two interleaved requests cannot jointly exceed the
cap. -/
theorem capacity_invariant (maxPerIP timeout : Nat) (st : ManagerState)
    (h : Reachable maxPerIP timeout st) :
    (∀ ip, canCreateSession ip st = true ↔ ipCount ip st < maxPerIP) ∧
    (∀ ip, ipCount ip st ≤ maxPerIP) := by
  obtain ⟨hmax, hcnt⟩ := reachable_inv maxPerIP timeout st h
  refine ⟨fun ip => ?_, hcnt⟩
  unfold canCreateSession
  rw [hmax]
  exact decide_eq_true_iff

theorem capacity_invariant_witness :
    (canCreateSession "1.2.3.4" (initialState 3 300000) = true ↔
      ipCount "1.2.3.4" (initialState 3 300000) < 3) ∧
    ipCount "1.2.3.4" (initialState 3 300000) ≤ 3 :=
  ⟨(capacity_invariant 3 300000 (initialState 3 300000) Reachable.init).1 "1.2.3.4",
   (capacity_invariant 3 300000 (initialState 3 300000) Reachable.init).2 "1.2.3.4"⟩
